import Mathlib

/-!
Verification of the BMP180 barometric sensor driver
(`src/altimeter/include/altimeter/BMP180_driver.py`) against its
natural-language specification.

The driver is shallowly embedded: Python arbitrary-precision integers
become `ℤ`, Python's floor-division `//` becomes `Int.fdiv`, Python's
arithmetic shifts `<<`/`>>` become multiplication/floor-division by a
power of two, Python `float` results of exact decimal divisions become
`ℚ` (the altitude formula, which uses a logarithm, is embedded over `ℝ`),
and the I2C bus is an explicit oracle recording the outcome of each
write/read transaction.  Exceptions (`AssertionError`, bus errors,
`ZeroDivisionError`, `IndexError`) become explicit error values.
-/

namespace BMP180

/-- Python's `x >> k` on an `int`: arithmetic shift, i.e. floor division
by `2^k` (truncation toward negative infinity, also for negative `x`). -/
def shr (x : ℤ) (k : ℕ) : ℤ := Int.fdiv x (2 ^ k)

/-- Python's `x << k` on an `int`: multiplication by `2^k`. -/
def shl (x : ℤ) (k : ℕ) : ℤ := x * 2 ^ k

/-- The eleven calibration coefficients of the device
(`self._ac1 .. self._md` in the source).  The driver reads them from the
device as 16-bit big-endian fields (AC4, AC5, AC6 unsigned, the rest
signed), but the compensation pipeline itself only manipulates them as
Python integers, so they are plain `ℤ` here. -/
structure Coeffs where
  ac1 : ℤ
  ac2 : ℤ
  ac3 : ℤ
  ac4 : ℤ
  ac5 : ℤ
  ac6 : ℤ
  b1 : ℤ
  b2 : ℤ
  mb : ℤ
  mc : ℤ
  md : ℤ
deriving Repr, DecidableEq

/-! ### Temperature compensation (source lines 139–142) -/

/-- Line 139: `x1 = ((ut - self._ac6) * self._ac5) >> 15`. -/
def tempX1 (c : Coeffs) (ut : ℤ) : ℤ := shr ((ut - c.ac6) * c.ac5) 15

/-- Line 140: `x2 = (self._mc << 11) // (x1 + self._md)`
(Python `//` is floor division). -/
def tempX2 (c : Coeffs) (ut : ℤ) : ℤ :=
  Int.fdiv (shl c.mc 11) (tempX1 c ut + c.md)

/-- Line 141: `b5 = x1 + x2`. -/
def tempB5 (c : Coeffs) (ut : ℤ) : ℤ := tempX1 c ut + tempX2 c ut

/-- Line 142, integer part: `(b5 + 8) // 2**4` — temperature in tenths
of a degree Celsius. -/
def tempTenths (c : Coeffs) (ut : ℤ) : ℤ :=
  Int.fdiv (tempB5 c ut + 8) (2 ^ 4)

/-- Line 142: `self._temperature = ((b5 + 8) // 2**4) / 10.0`. -/
def temperatureValue (c : Coeffs) (ut : ℤ) : ℚ :=
  (tempTenths c ut : ℚ) / 10

/-! ### Pressure compensation (source lines 144–161) -/

/-- Line 144: `b6 = b5 - 4000`. -/
def pressB6 (b5 : ℤ) : ℤ := b5 - 4000

/-- Lines 145–147:
`x1 = self._b2 * ((b6 * b6) >> 12)`;
`x2 = self._ac2 * b6`;
`x3 = (x1 + x2) >> 11` — note the single shift applied to the sum. -/
def pressX3a (c : Coeffs) (b6 : ℤ) : ℤ :=
  shr (c.b2 * shr (b6 * b6) 12 + c.ac2 * b6) 11

/-- Line 148: `b3 = (((self._ac1 *4 + x3) << self._os_mode) + 2) >> 2`. -/
def pressB3 (c : Coeffs) (m : ℕ) (b6 : ℤ) : ℤ :=
  shr (shl (c.ac1 * 4 + pressX3a c b6) m + 2) 2

/-- Lines 149–151:
`x1 = (self._ac3 * b6) >> 13`;
`x2 = (self._b1 * (b6 * b6) >> 12) >> 16` — by Python precedence this is
`((b1 * (b6*b6)) >> 12) >> 16`;
`x3 = ((x1 + x2) + 2) >> 2`. -/
def pressX3b (c : Coeffs) (b6 : ℤ) : ℤ :=
  shr (shr (c.ac3 * b6) 13 + shr (shr (c.b1 * (b6 * b6)) 12) 16 + 2) 2

/-- Line 152: `b4 = (self._ac4 * (x3 + 32768)) >> 15`. -/
def pressB4 (c : Coeffs) (b6 : ℤ) : ℤ :=
  shr (c.ac4 * (pressX3b c b6 + 32768)) 15

/-- Line 153: `b7 = (up - b3) * (50000 >> self._os_mode)`. -/
def pressB7 (up : ℤ) (m : ℕ) (b3 : ℤ) : ℤ := (up - b3) * shr 50000 m

/-- Lines 154–157: `p = (b7 * 2) // b4 if b7 < 0x80000000 else (b7 // b4) * 2`. -/
def pressP (b7 b4 : ℤ) : ℤ :=
  if b7 < 0x80000000 then Int.fdiv (b7 * 2) b4 else Int.fdiv b7 b4 * 2

/-- Lines 158–161, integer part:
`x1 = p**2 >> 16`; `x1 = (x1 * 3038) >> 16`; `x2 = (-7357 * p) >> 16`;
`p + ((x1 + x2 + 3791) >> 4)` — the stored pressure before the final
division by `100.0`. -/
def pressFinal (p : ℤ) : ℤ :=
  p + shr (shr (shr (p ^ 2) 16 * 3038) 16 + shr (-7357 * p) 16 + 3791) 4

/-- The full integer pressure pipeline of lines 144–161, from `b5`
(produced by the temperature part), the raw pressure code `up` and the
oversampling mode `m`. -/
def pressurePa100 (c : Coeffs) (b5 up : ℤ) (m : ℕ) : ℤ :=
  pressFinal (pressP (pressB7 up m (pressB3 c m (pressB6 b5)))
    (pressB4 c (pressB6 b5)))

/-- Line 161: `self._pressure = (p + ((x1 + x2 + 3791) >> 4)) / 100.0`. -/
def pressureValue (c : Coeffs) (ut up : ℤ) (m : ℕ) : ℚ :=
  (pressurePa100 c (tempB5 c ut) up m : ℚ) / 100

/-! ### Raw ADC code combination (source lines 129 and 137) -/

/-- Line 129: `ut = vals[0] << 8 | vals[1]` over the 2-byte block read
from the data register.  Python list indexing raises `IndexError` when
out of range, hence the `Option`. -/
def rawTemperatureCode (vals : List ℕ) : Option ℕ :=
  match vals[0]?, vals[1]? with
  | some v0, some v1 => some (v0 <<< 8 ||| v1)
  | _, _ => none

/-- Line 137:
`up = (vals[0] << 16 | vals[1] << 8 | vals[0]) >> (8 - self._os_mode)`
over the 3-byte block read from the data register.  Only `vals[0]` and
`vals[1]` are ever accessed: the third byte position of the combination
reads `vals[0]` again. -/
def rawPressureCode (vals : List ℕ) (m : ℕ) : Option ℕ :=
  match vals[0]?, vals[1]? with
  | some v0, some v1 => some ((v0 <<< 16 ||| v1 <<< 8 ||| v0) >>> (8 - m))
  | _, _ => none

/-! ### Errors, bus oracle, driver state -/

/-- Error taxonomy of the spec (section 7) together with the Python
runtime errors the source can raise: `invalidAddress` and `invalidMode`
model the two `assert` guards (`AssertionError`), `zeroDivision` models
`ZeroDivisionError` in the compensation arithmetic, `indexError` models
out-of-range list indexing on a short bus response. -/
inductive DriverError where
  | busWrite
  | busRead
  | invalidAddress
  | invalidMode
  | zeroDivision
  | indexError
deriving Repr, DecidableEq

/-- Outcome oracle for the I2C bus collaborator (`smbus.SMBus`): for
each `write_byte_data(addr, reg, value)` whether it succeeds, and for
each `read_i2c_block_data(addr, reg, len)` either a transport fault or
the returned block.  The device address is fixed per driver instance and
therefore omitted from the oracle. -/
structure Bus where
  writeOk : ℕ → ℕ → Bool
  readBlock : ℕ → ℕ → Except Unit (List ℕ)

/-- Mutable state of a `BMP180` object: calibration coefficients,
current oversampling mode, and the two stored calibrated values (`None`
until the first successful update, per source lines 61–62). -/
structure DriverState where
  coeffs : Coeffs
  osMode : ℕ
  temperature : Option ℚ
  pressure : Option ℚ
deriving Repr, DecidableEq

/-! Register and command constants (source lines 8–33). -/

def REG_CALIB_OFFSET : ℕ := 0xAA
def REG_CONTROL_MEASUREMENT : ℕ := 0xF4
def REG_DATA : ℕ := 0xF6
def CMD_START_CONVERSION : ℕ := 0b00100000
def CMD_TEMPERATURE : ℕ := 0b00001110
def CMD_PRESSURE : ℕ := 0b00010100
def OS_MODE_SINGLE : ℕ := 0b00
def OS_MODE_2 : ℕ := 0b01
def OS_MODE_4 : ℕ := 0b10
def OS_MODE_8 : ℕ := 0b11

/-- Model of `_update_sensor_data` (source lines 122–161): one full
two-stage conversion.  Returns the state after the call together with
the raised error, if any; the state is mutated exactly where the source
mutates `self`, so an error raised mid-way leaves precisely the
mutations made up to that point (in particular, all bus transactions
happen before any mutation, and `self._temperature` is assigned on line
142 before the pressure arithmetic that can still divide by zero on
lines 155/157). -/
def updateSensorData (bus : Bus) (st : DriverState) :
    DriverState × Option DriverError :=
  -- lines 123–125: start temperature conversion
  if ¬ bus.writeOk REG_CONTROL_MEASUREMENT (CMD_START_CONVERSION ||| CMD_TEMPERATURE) then
    (st, some .busWrite)
  else
    -- lines 127–129: read and combine the 2-byte raw temperature
    match bus.readBlock REG_DATA 2 with
    | .error _ => (st, some .busRead)
    | .ok tvals =>
      match rawTemperatureCode tvals with
      | none => (st, some .indexError)
      | some ut =>
        -- lines 131–133: start pressure conversion
        if ¬ bus.writeOk REG_CONTROL_MEASUREMENT
            (CMD_START_CONVERSION ||| st.osMode <<< 6 ||| CMD_PRESSURE) then
          (st, some .busWrite)
        else
          -- lines 135–137: read and combine the 3-byte raw pressure
          match bus.readBlock REG_DATA 3 with
          | .error _ => (st, some .busRead)
          | .ok pvals =>
            match rawPressureCode pvals st.osMode with
            | none => (st, some .indexError)
            | some up =>
              let c := st.coeffs
              -- line 140 divides by `x1 + self._md`
              if tempX1 c (ut : ℤ) + c.md = 0 then (st, some .zeroDivision)
              else
                -- line 142: first mutation
                let st1 := { st with temperature := some (temperatureValue c (ut : ℤ)) }
                -- lines 155/157 divide by `b4`
                if pressB4 c (pressB6 (tempB5 c (ut : ℤ))) = 0 then
                  (st1, some .zeroDivision)
                else
                  ({ st1 with
                      pressure := some (pressureValue c (ut : ℤ) (up : ℤ) st.osMode) },
                    none)

/-- Model of `temperature()` (source lines 73–78): run a full update,
then return `self._temperature`.  The pair is (state after the call,
outcome); a raised error propagates to the caller in place of a value. -/
def temperatureCall (bus : Bus) (st : DriverState) :
    DriverState × Except DriverError (Option ℚ) :=
  match updateSensorData bus st with
  | (st', none) => (st', .ok st'.temperature)
  | (st', some e) => (st', .error e)

/-- Model of `pressure()` (source lines 66–71): run a full update, then
return `self._pressure`. -/
def pressureCall (bus : Bus) (st : DriverState) :
    DriverState × Except DriverError (Option ℚ) :=
  match updateSensorData bus st with
  | (st', none) => (st', .ok st'.pressure)
  | (st', some e) => (st', .error e)

/-- Pure compensation pipeline of source lines 139–161 as a function of
the coefficients, the raw codes and the mode, with Python's
`ZeroDivisionError` made explicit: line 140 divides by `x1 + self._md`
and lines 155/157 divide by `b4`. -/
def compensateE (c : Coeffs) (ut up : ℤ) (m : ℕ) :
    Except DriverError (ℚ × ℚ) :=
  if tempX1 c ut + c.md = 0 then .error .zeroDivision
  else if pressB4 c (pressB6 (tempB5 c ut)) = 0 then .error .zeroDivision
  else .ok (temperatureValue c ut, pressureValue c ut up m)

/-- Model of the `os_mode` setter (source lines 105–111): the `assert`
accepts exactly the four defined mode constants (an `AssertionError`,
the spec's `InvalidModeError`, otherwise); `self._os_mode` is only
written after the assert passes. -/
def setOsMode (st : DriverState) (osMode : ℤ) : DriverState × Option DriverError :=
  if osMode = (OS_MODE_SINGLE : ℤ) ∨ osMode = (OS_MODE_2 : ℤ)
      ∨ osMode = (OS_MODE_4 : ℤ) ∨ osMode = (OS_MODE_8 : ℤ) then
    ({ st with osMode := osMode.toNat }, none)
  else (st, some .invalidMode)

/-! ### Calibration decode and construction (source lines 40–64, 113–119) -/

/-- Big-endian unsigned 16-bit field (`struct` format `H`). -/
def u16 (hi lo : ℕ) : ℤ := (hi : ℤ) * 256 + (lo : ℤ)

/-- Big-endian signed 16-bit field (`struct` format `h`): two's
complement. -/
def s16 (hi lo : ℕ) : ℤ :=
  if u16 hi lo < 32768 then u16 hi lo else u16 hi lo - 65536

/-- Decode of `_read_calibration_data` (source lines 116–119):
`struct.unpack '>hhhHHHhhhhh'` over the 22-byte block — AC1..AC3 signed,
AC4..AC6 unsigned, B1..MD signed, all big-endian.  `none` when the block
does not consist of exactly 22 bytes (`struct.error`). -/
def decodeCalib (block : List ℕ) : Option Coeffs :=
  match block with
  | [a1, a2, b1, b2, c1, c2, d1, d2, e1, e2, f1, f2,
     g1, g2, h1, h2, i1, i2, j1, j2, k1, k2] =>
    some { ac1 := s16 a1 a2, ac2 := s16 b1 b2, ac3 := s16 c1 c2,
           ac4 := u16 d1 d2, ac5 := u16 e1 e2, ac6 := u16 f1 f2,
           b1 := s16 g1 g2, b2 := s16 h1 h2, mb := s16 i1 i2,
           mc := s16 j1 j2, md := s16 k1 k2 }
  | _ => none

/-- Model of `BMP180.__init__` (source lines 40–64): validates the
device address (`assert(addr > 0b000111 and addr < 0b1111000)`, the
spec's `InvalidAddressError`) before touching the bus, then reads and
decodes the 22-byte calibration block.  A transport fault during that
read is `BusReadError`; a block of the wrong size makes `struct.unpack`
fail, which spec section 4.1 also classifies as `BusReadError`. -/
def init (bus : Bus) (addr : ℤ) (osMode : ℕ) : Except DriverError DriverState :=
  if ¬(addr > 0b000111 ∧ addr < 0b1111000) then .error .invalidAddress
  else
    match bus.readBlock REG_CALIB_OFFSET 22 with
    | .error _ => .error .busRead
    | .ok block =>
      match decodeCalib block with
      | none => .error .busRead
      | some c =>
        .ok { coeffs := c, osMode := osMode, temperature := none, pressure := none }

/-! ### Altitude (source lines 80–92) -/

/-- Formula of `altitude()` (source lines 80–92) over the reals:
`- math.log(p / p0) * (R * Tb) / (g0 * M)` with `g0 = 9.80665`,
`M = 0.0289644`, `R = 8.3144598`, `Tb = 25 + 273.15`, `p0 = 1013.25`,
applied to the stored pressure value; `round(x, 2)` is embedded as
rounding `100 * x` to the nearest integer (Mathlib's `round`; it differs
from Python's float `round` only at exact midpoints). -/
noncomputable def altitudeFromPressure (p : ℝ) : ℝ :=
  let g0 : ℝ := 9.80665
  let M : ℝ := 0.0289644
  let R : ℝ := 8.3144598
  let Tb : ℝ := 25 + 273.15
  let p0 : ℝ := 1013.25
  (round (-Real.log (p / p0) * (R * Tb) / (g0 * M) * 100) : ℝ) / 100

/-- Model of `altitude()` (source lines 80–92): run a full update, then
apply the barometric formula to `self._pressure`.  After a successful
update the stored pressure is always set; the `none` branch (Python
would raise `TypeError` on `None`) is modelled as `indexError`-style
propagation and is unreachable from a successful update. -/
noncomputable def altitudeCall (bus : Bus) (st : DriverState) :
    DriverState × Except DriverError ℝ :=
  match updateSensorData bus st with
  | (st', none) =>
    match st'.pressure with
    | some q => (st', .ok (altitudeFromPressure (q : ℝ)))
    | none => (st', .error .indexError)
  | (st', some e) => (st', .error e)

/-! ### Reference definitions transcribed from the spec's own words
(section 4.2 `compensate` and `altitude`), for comparison with the
definitions above, which are transcribed from the source. -/

/-- Transcribed from the spec's `compensate` pseudocode, temperature
part: `X1 = ((UT - AC6) * AC5) >> 15`; `X2 = (MC << 11) / (X1 + MD)`
(integer division truncating toward negative infinity);
`T = (X1 + X2 + 8) >> 4` tenths of a degree; `temperatureC = T / 10.0`. -/
def spec_temperatureC (c : Coeffs) (ut : ℤ) : ℚ :=
  let x1 := shr ((ut - c.ac6) * c.ac5) 15
  let x2 := Int.fdiv (shl c.mc 11) (x1 + c.md)
  ((shr (x1 + x2 + 8) 4 : ℤ) : ℚ) / 10

/-- Transcribed from the spec's `compensate` pseudocode, pressure part,
exactly as written there: in particular `X1 = (B2 * (B6*B6 >> 12)) >> 11`
and `X2 = (AC2 * B6) >> 11` are each shifted before being summed into
`X3`, and the later `X2 = (B1 * (B6*B6 >> 12)) >> 16` multiplies `B1` by
the already-shifted `B6*B6 >> 12`.  Output is `pressurePa_hundredths`,
the value the spec divides by `100.0` at the end. -/
def spec_pressurePa100 (c : Coeffs) (b5 up : ℤ) (m : ℕ) : ℤ :=
  let b6 := b5 - 4000
  let x1 := shr (c.b2 * shr (b6 * b6) 12) 11
  let x2 := shr (c.ac2 * b6) 11
  let x3 := x1 + x2
  let b3 := shr (shl (c.ac1 * 4 + x3) m + 2) 2
  let y1 := shr (c.ac3 * b6) 13
  let y2 := shr (c.b1 * shr (b6 * b6) 12) 16
  let y3 := shr (y1 + y2 + 2) 2
  let b4 := shr (c.ac4 * (y3 + 32768)) 15
  let b7 := (up - b3) * shr 50000 m
  let p := if b7 < 0x80000000 then Int.fdiv (b7 * 2) b4 else Int.fdiv b7 b4 * 2
  let z1 := shr (shr (p * p) 16 * 3038) 16
  let z2 := shr (-7357 * p) 16
  p + shr (z1 + z2 + 3791) 4

/-- The spec's pressure pipeline amended at exactly the two places where
the source groups differently: `X3 = (B2 * (B6*B6 >> 12) + AC2 * B6) >> 11`
(one shift applied to the sum), and `X2 = ((B1 * (B6*B6)) >> 12) >> 16`
(Python's precedence multiplies `B1` by the unshifted `B6*B6`). -/
def spec_pressurePa100_codeGrouping (c : Coeffs) (b5 up : ℤ) (m : ℕ) : ℤ :=
  let b6 := b5 - 4000
  let x3 := shr (c.b2 * shr (b6 * b6) 12 + c.ac2 * b6) 11
  let b3 := shr (shl (c.ac1 * 4 + x3) m + 2) 2
  let y1 := shr (c.ac3 * b6) 13
  let y2 := shr (shr (c.b1 * (b6 * b6)) 12) 16
  let y3 := shr (y1 + y2 + 2) 2
  let b4 := shr (c.ac4 * (y3 + 32768)) 15
  let b7 := (up - b3) * shr 50000 m
  let p := if b7 < 0x80000000 then Int.fdiv (b7 * 2) b4 else Int.fdiv b7 b4 * 2
  let z1 := shr (shr (p * p) 16 * 3038) 16
  let z2 := shr (-7357 * p) 16
  p + shr (z1 + z2 + 3791) 4

/-- Transcribed from the spec's `altitude` operation:
`altitude = -ln(pressurePa_hPa / 1013.25) * (R * Tb) / (g0 * M)` with
`R = 8.3144598`, `Tb = 298.15`, `g0 = 9.80665`, `M = 0.0289644`, rounded
to 2 decimal places. -/
noncomputable def spec_altitude (p : ℝ) : ℝ :=
  (round (-Real.log (p / 1013.25) * (8.3144598 * 298.15) / (9.80665 * 0.0289644) * 100) : ℝ)
    / 100

/-! ### Concrete fixtures -/

/-- Reference calibration coefficients of the spec's documented worked
example (spec section 8). -/
def dsC : Coeffs :=
  { ac1 := 408, ac2 := -72, ac3 := -14383, ac4 := 32741, ac5 := 32757,
    ac6 := 23153, b1 := 6190, b2 := 4, mb := -32768, mc := -8711, md := 2868 }

/-- The 22-byte big-endian encoding of `dsC`, as the device would return
it from the calibration block registers. -/
def calibBytes : List ℕ :=
  [1, 152, 255, 184, 199, 209, 127, 229, 127, 245, 90, 113,
   24, 46, 0, 4, 128, 0, 221, 249, 11, 52]

/-- Driver state holding the worked-example coefficients, SINGLE mode,
no stored readings yet. -/
def dsState0 : DriverState :=
  { coeffs := dsC, osMode := 0, temperature := none, pressure := none }

/-- All-zero calibration coefficients: a device read can return any
bytes, and this set makes the temperature divisor `x1 + md` zero. -/
def zeroC : Coeffs :=
  { ac1 := 0, ac2 := 0, ac3 := 0, ac4 := 0, ac5 := 0, ac6 := 0,
    b1 := 0, b2 := 0, mb := 0, mc := 0, md := 0 }

/-- Driver state holding the all-zero coefficients. -/
def zeroState : DriverState :=
  { coeffs := zeroC, osMode := 0, temperature := none, pressure := none }

/-- A fully functioning bus whose 3-byte pressure block is
`[0x5D, 0x23, x]`: the 2-byte temperature block gives `UT = 27898` and,
in SINGLE mode, the pressure block gives `UP = 23843` regardless of `x`. -/
def byteBus (x : ℕ) : Bus where
  writeOk := fun _ _ => true
  readBlock := fun reg len =>
    if reg = REG_DATA ∧ len = 3 then .ok [0x5D, 0x23, x]
    else if reg = REG_DATA ∧ len = 2 then .ok [0x6C, 0xFA]
    else .ok calibBytes

/-- A bus that fails exactly at the 3-byte pressure data read (the
pressure-wait stage of the spec's state machine). -/
def faultBus : Bus where
  writeOk := fun _ _ => true
  readBlock := fun reg len =>
    if reg = REG_DATA ∧ len = 3 then .error ()
    else if reg = REG_DATA ∧ len = 2 then .ok [0x6C, 0xFA]
    else .ok calibBytes

/-! ### Helper lemmas -/

/-- Bitwise-or of a left-shifted value with a value that fits in the
shifted-away bits is plain addition. -/
theorem shiftLeft_lor_add : ∀ (k a b : ℕ), b < 2 ^ k → a <<< k ||| b = a * 2 ^ k + b := by
  intro k
  induction k with
  | zero =>
    intro a b hb
    have hb0 : b = 0 := by omega
    subst hb0
    simp [Nat.shiftLeft_eq]
  | succ k ih =>
    intro a b hb
    have hb2 : b.div2 < 2 ^ k := by
      have h2 : b < 2 ^ k * 2 := by rw [← pow_succ]; exact hb
      rw [Nat.div2_val]
      omega
    have e1 : a <<< (k + 1) = Nat.bit false (a <<< k) := by
      simp [Nat.bit, Nat.shiftLeft_eq, pow_succ]
      ring
    have e2 : b = Nat.bit b.bodd b.div2 := (Nat.bit_decomp b).symm
    rw [e1, e2, Nat.lor_bit, ih a b.div2 hb2, Bool.false_or]
    rw [Nat.bit_val, Nat.bit_val, pow_succ]
    ring_nf

/-- A transport fault in `_update_sensor_data` happens before any
mutation of the driver state. -/
theorem update_transport_eq {bus : Bus} {st st' : DriverState} {e : DriverError}
    (h : updateSensorData bus st = (st', some e))
    (he : e = DriverError.busWrite ∨ e = DriverError.busRead) : st' = st := by
  rcases he with rfl | rfl <;>
  · unfold updateSensorData at h
    repeat' split at h
    any_goals simp_all
    all_goals ((split at h <;> try (split at h)) <;> simp_all)

/-- Evaluation of the compensation pipeline on the spec's worked-example
inputs. -/
theorem compensateE_ds : compensateE dsC 27898 23843 0 = Except.ok (15, 699.65) := by
  unfold compensateE
  rw [if_neg (by decide), if_neg (by decide)]
  have ht : temperatureValue dsC 27898 = 15 := by
    rw [temperatureValue, show tempTenths dsC 27898 = 150 from by decide]
    norm_num
  have hp : pressureValue dsC 27898 23843 0 = 699.65 := by
    rw [pressureValue, show pressurePa100 dsC (tempB5 dsC 27898) 23843 0 = 69965 from by decide]
    norm_num
  rw [ht, hp]

end BMP180

open BMP180

/-! ## Claims -/

/-- C1 (amended): on the reference coefficients with UT=27898, UP=23843
in SINGLE oversampling mode, the compensation pipeline returns
temperatureC = 15.0 and a stored pressure value of 699.65 — the integer
pipeline yields 69965 (hundredths-of-hPa units) and line 161 divides it
by 100.0; the claimed pressurePa = 69964.0 is not produced. -/
theorem C1_worked_example :
    compensateE dsC 27898 23843 0 = Except.ok (15, 699.65)
    ∧ tempTenths dsC 27898 = 150
    ∧ pressurePa100 dsC (tempB5 dsC 27898) 23843 0 = 69965 :=
  ⟨compensateE_ds, by decide, by decide⟩

/-- C1 counterexample: the pipeline on the worked-example inputs does
not return (15.0, 69964.0). -/
theorem C1_counterexample :
    compensateE dsC 27898 23843 0 ≠ Except.ok (15, 69964) := by
  rw [compensateE_ds]
  simp only [ne_eq, Except.ok.injEq, Prod.mk.injEq, not_and]
  intro _
  norm_num

/-- C2 (amended): for every coefficient set, UT, UP and mode, the code's
pressure pipeline equals the spec pipeline amended at exactly the two
grouping points — `X3 = (B2*(B6*B6 >> 12) + AC2*B6) >> 11` (one shift of
the sum instead of two shifted summands) and
`X2 = ((B1*(B6*B6)) >> 12) >> 16` (B1 times the unshifted B6*B6). -/
theorem C2_pressure_pipeline_grouping :
    ∀ (c : Coeffs) (ut up : ℤ) (m : ℕ),
      pressurePa100 c (tempB5 c ut) up m
        = spec_pressurePa100_codeGrouping c (tempB5 c ut) up m
      ∧ pressureValue c ut up m
        = (spec_pressurePa100_codeGrouping c (tempB5 c ut) up m : ℚ) / 100 := by
  intro c ut up m
  have h : pressurePa100 c (tempB5 c ut) up m
      = spec_pressurePa100_codeGrouping c (tempB5 c ut) up m := by
    simp only [pressurePa100, pressFinal, pressP, pressB7, pressB3, pressX3a,
      pressX3b, pressB4, pressB6, spec_pressurePa100_codeGrouping, pow_two]
  exact ⟨h, by rw [pressureValue, h]⟩

/-- C2 counterexample: with the worked-example coefficients but
UT=27000, the code's pressure output differs from the spec's exact
pipeline (68774 vs 68777 hundredths). -/
theorem C2_counterexample :
    pressureValue dsC 27000 23843 0
      ≠ (spec_pressurePa100 dsC (tempB5 dsC 27000) 23843 0 : ℚ) / 100 := by
  rw [pressureValue,
    show pressurePa100 dsC (tempB5 dsC 27000) 23843 0 = 68774 from by decide,
    show spec_pressurePa100 dsC (tempB5 dsC 27000) 23843 0 = 68777 from by decide]
  norm_num

/-- C3: for every oversampling mode m < 4 and every 3-byte data block,
the raw pressure code is ((b0 << 16) | (b1 << 8) | b0) >> (8 - m): the
third byte position is taken from the first byte, the third byte is
ignored, and the right shift is exactly (8 - m) bits. -/
theorem C3_raw_pressure_code :
    ∀ (m : ℕ), m < 4 → ∀ (b0 b1 b2 : ℕ), b0 < 256 → b1 < 256 →
      rawPressureCode [b0, b1, b2] m
        = some ((b0 * 2 ^ 16 + b1 * 2 ^ 8 + b0) / 2 ^ (8 - m)) := by
  intro m _hm b0 b1 b2 h0 h1
  have hstep : rawPressureCode [b0, b1, b2] m
      = some ((b0 <<< 16 ||| b1 <<< 8 ||| b0) >>> (8 - m)) := rfl
  rw [hstep]
  congr 1
  have h8 : b1 <<< 8 ||| b0 = b1 * 2 ^ 8 + b0 := shiftLeft_lor_add 8 b1 b0 (by omega)
  have hlt : b1 * 2 ^ 8 + b0 < 2 ^ 16 := by omega
  have h16 : b0 <<< 16 ||| (b1 * 2 ^ 8 + b0) = b0 * 2 ^ 16 + (b1 * 2 ^ 8 + b0) :=
    shiftLeft_lor_add 16 b0 _ hlt
  rw [Nat.lor_assoc, h8, h16, Nat.shiftRight_eq_div_pow]
  ring_nf

/-- C3 witness: concrete instance at m = 0, block [255, 7, 9]. -/
theorem C3_witness :
    (0 : ℕ) < 4 ∧ (255 : ℕ) < 256 ∧ (7 : ℕ) < 256
    ∧ rawPressureCode [255, 7, 9] 0
        = some ((255 * 2 ^ 16 + 7 * 2 ^ 8 + 255) / 2 ^ (8 - 0)) :=
  ⟨by decide, by decide, by decide,
    C3_raw_pressure_code 0 (by decide) 255 7 9 (by decide) (by decide)⟩

/-- C4: whenever the divisor X1 + MD is nonzero, the calibrated
temperature equals ((X1 + X2 + 8) >> 4) / 10.0 with
X1 = ((UT - AC6)*AC5) >> 15 and X2 = (MC << 11) / (X1 + MD), the
division and the shifts truncating toward negative infinity, the value
being in tenths of a degree before the division by 10. -/
theorem C4_temperature_compensation :
    ∀ (c : Coeffs) (ut : ℤ),
      tempX1 c ut + c.md ≠ 0 →
      temperatureValue c ut = spec_temperatureC c ut
      ∧ temperatureValue c ut = (tempTenths c ut : ℚ) / 10
      ∧ tempTenths c ut = shr (tempX1 c ut + tempX2 c ut + 8) 4 := by
  intro c ut _h
  exact ⟨rfl, rfl, rfl⟩

/-- C4 witness: the worked-example inputs satisfy the precondition and
the formula. -/
theorem C4_witness :
    tempX1 dsC 27898 + dsC.md ≠ 0
    ∧ temperatureValue dsC 27898 = spec_temperatureC dsC 27898 :=
  ⟨by decide, (C4_temperature_compensation dsC 27898 (by decide)).1⟩

/-- C5 (amended): altitude() computes
-ln(p / 1013.25) * (R*Tb) / (g0*M) with R = 8.3144598, Tb = 298.15,
g0 = 9.80665, M = 0.0289644, rounded to 2 decimal places, and returns
0.0 when the stored calibrated pressure reading is 1013.25 — the driver
stores pressure in hPa, so the sea-level reference reading is 1013.25,
not 101325.0. -/
theorem C5_altitude :
    (∀ p : ℝ, altitudeFromPressure p = spec_altitude p)
    ∧ altitudeFromPressure 1013.25 = 0 := by
  constructor
  · intro p
    unfold altitudeFromPressure spec_altitude
    norm_num
  · have h1 : altitudeFromPressure 1013.25
        = (round (-Real.log ((1013.25 : ℝ) / 1013.25)
            * (8.3144598 * (25 + 273.15)) / (9.80665 * 0.0289644) * 100) : ℝ) / 100 := rfl
    rw [h1, show (1013.25 : ℝ) / 1013.25 = 1 from by norm_num, Real.log_one]
    norm_num

/-- C5 counterexample: at a stored pressure reading of 101325.0 the
altitude is not 0 (it is about -40 km, since the stored reading is in
hPa). -/
theorem C5_counterexample : altitudeFromPressure 101325 ≠ 0 := by
  have key0 : altitudeFromPressure 101325
      = (round (-Real.log ((101325 : ℝ) / 1013.25)
          * (8.3144598 * (25 + 273.15)) / (9.80665 * 0.0289644) * 100) : ℝ) / 100 := rfl
  rw [key0, show (101325 : ℝ) / 1013.25 = 100 from by norm_num]
  have hL : 1 < Real.log 100 := by
    rw [Real.lt_log_iff_exp_lt (by norm_num : (0 : ℝ) < 100)]
    calc Real.exp 1 < 2.7182818286 := Real.exp_one_lt_d9
    _ < 100 := by norm_num
  have hK : (1 : ℝ) < 8.3144598 * (25 + 273.15) / (9.80665 * 0.0289644) * 100 := by
    norm_num
  have harg : -Real.log 100 * (8.3144598 * (25 + 273.15))
      / (9.80665 * 0.0289644) * 100 < -1 := by
    have hform : -Real.log 100 * (8.3144598 * (25 + 273.15)) / (9.80665 * 0.0289644) * 100
        = -(Real.log 100 * (8.3144598 * (25 + 273.15) / (9.80665 * 0.0289644) * 100)) := by
      ring
    rw [hform, neg_lt, neg_neg]
    nlinarith [hL, hK]
  have hround : round (-Real.log 100 * (8.3144598 * (25 + 273.15))
      / (9.80665 * 0.0289644) * 100) < 0 := by
    rw [round_eq, Int.floor_lt]
    push_cast
    linarith
  apply div_ne_zero
  · exact_mod_cast Int.ne_of_lt hround
  · norm_num

/-- C6: a transport failure (bus write or bus read error) at any stage
of a reading cycle propagates synchronously through temperature(),
pressure() and altitude(); the failing accessor returns an error instead
of a value, and the stored calibrated temperature and pressure are
unchanged from before the call. -/
theorem C6_transport_error_propagation :
    ∀ (bus : Bus) (st st' : DriverState) (e : DriverError),
      updateSensorData bus st = (st', some e) →
      e = DriverError.busWrite ∨ e = DriverError.busRead →
      st' = st
      ∧ temperatureCall bus st = (st, Except.error e)
      ∧ pressureCall bus st = (st, Except.error e)
      ∧ altitudeCall bus st = (st, Except.error e) := by
  intro bus st st' e h he
  have hst : st' = st := update_transport_eq h he
  subst hst
  refine ⟨rfl, ?_, ?_, ?_⟩ <;>
    simp [temperatureCall, pressureCall, altitudeCall, h]

/-- C6 witness: a fault at the pressure data read surfaces as a bus read
error from all three accessors and leaves the state unchanged. -/
theorem C6_witness :
    updateSensorData faultBus dsState0 = (dsState0, some DriverError.busRead)
    ∧ temperatureCall faultBus dsState0 = (dsState0, Except.error DriverError.busRead)
    ∧ pressureCall faultBus dsState0 = (dsState0, Except.error DriverError.busRead)
    ∧ altitudeCall faultBus dsState0 = (dsState0, Except.error DriverError.busRead) := by
  have h : updateSensorData faultBus dsState0 = (dsState0, some DriverError.busRead) := by
    decide
  have hmain := C6_transport_error_propagation faultBus dsState0 dsState0
    DriverError.busRead h (Or.inr rfl)
  exact ⟨h, hmain.2.1, hmain.2.2.1, hmain.2.2.2⟩

/-- C7: setting the oversampling mode to anything outside the four
defined constants fails with the invalid-mode error and leaves the state
(including the stored mode) unchanged; each of the four valid values is
stored exactly. -/
theorem C7_os_mode_setter :
    ∀ (st : DriverState) (v : ℤ),
      (¬(v = (OS_MODE_SINGLE : ℤ) ∨ v = (OS_MODE_2 : ℤ)
          ∨ v = (OS_MODE_4 : ℤ) ∨ v = (OS_MODE_8 : ℤ)) →
        setOsMode st v = (st, some DriverError.invalidMode))
      ∧ ((v = (OS_MODE_SINGLE : ℤ) ∨ v = (OS_MODE_2 : ℤ)
          ∨ v = (OS_MODE_4 : ℤ) ∨ v = (OS_MODE_8 : ℤ)) →
        setOsMode st v = ({ st with osMode := v.toNat }, none)
        ∧ ((setOsMode st v).1.osMode : ℤ) = v) := by
  intro st v
  constructor
  · intro h
    unfold setOsMode
    rw [if_neg h]
  · intro h
    unfold setOsMode
    rw [if_pos h]
    refine ⟨rfl, ?_⟩
    rcases h with h | h | h | h <;> subst h <;> rfl

/-- C7 witness: mode 5 is rejected with the state unchanged; mode
OS_MODE_4 = 2 is stored exactly. -/
theorem C7_witness :
    setOsMode dsState0 5 = (dsState0, some DriverError.invalidMode)
    ∧ ((setOsMode dsState0 2).1.osMode : ℤ) = 2 :=
  ⟨(C7_os_mode_setter dsState0 5).1 (by decide),
    ((C7_os_mode_setter dsState0 2).2 (Or.inr (Or.inr (Or.inl (by decide))))).2⟩

/-- C8: construction fails with the invalid-address error exactly for
addresses outside the open range 0x07 < a < 0x78 — in particular 0x00
and 0x78 fail — and the validation accepts every address inside the
range; at 0x77 with a bus returning a well-formed 22-byte calibration
block, construction succeeds with the decoded coefficients. -/
theorem C8_address_validation :
    (∀ (bus : Bus) (a : ℤ) (m : ℕ),
      init bus a m = Except.error DriverError.invalidAddress ↔ ¬(0x07 < a ∧ a < 0x78))
    ∧ init (byteBus 0) 0x77 0 = Except.ok dsState0
    ∧ init (byteBus 0) 0x00 0 = Except.error DriverError.invalidAddress
    ∧ init (byteBus 0) 0x78 0 = Except.error DriverError.invalidAddress := by
  refine ⟨?_, by rfl, by rfl, by rfl⟩
  intro bus a m
  unfold init
  by_cases h : a > 0b000111 ∧ a < 0b1111000
  · rw [if_neg (not_not_intro h)]
    constructor
    · intro hcontra
      exfalso
      revert hcontra
      split
      · simp
      · split <;> simp
    · intro hcontra
      exact absurd h hcontra
  · rw [if_pos h]
    simpa using h

/-- C9: the compensation pipeline has exactly two unguarded integer
divisions — it raises a division-by-zero error iff the temperature
divisor X1 + MD is zero or the pressure divisor B4 is zero; when both
are nonzero the pipeline is total and produces the calibrated pair; and
a division-by-zero raised during an update escapes through the public
accessors. -/
theorem C9_division_by_zero :
    (∀ (c : Coeffs) (ut up : ℤ) (m : ℕ),
      compensateE c ut up m = Except.error DriverError.zeroDivision
        ↔ (tempX1 c ut + c.md = 0 ∨ pressB4 c (pressB6 (tempB5 c ut)) = 0))
    ∧ (∀ (c : Coeffs) (ut up : ℤ) (m : ℕ),
      tempX1 c ut + c.md ≠ 0 → pressB4 c (pressB6 (tempB5 c ut)) ≠ 0 →
      compensateE c ut up m
        = Except.ok (temperatureValue c ut, pressureValue c ut up m))
    ∧ (∀ (bus : Bus) (st st' : DriverState),
      updateSensorData bus st = (st', some DriverError.zeroDivision) →
      temperatureCall bus st = (st', Except.error DriverError.zeroDivision)
      ∧ pressureCall bus st = (st', Except.error DriverError.zeroDivision)
      ∧ altitudeCall bus st = (st', Except.error DriverError.zeroDivision)) := by
  refine ⟨?_, ?_, ?_⟩
  · intro c ut up m
    unfold compensateE
    split_ifs with h1 h2 <;> simp [*]
  · intro c ut up m h1 h2
    unfold compensateE
    rw [if_neg h1, if_neg h2]
  · intro bus st st' h
    refine ⟨?_, ?_, ?_⟩ <;>
      simp [temperatureCall, pressureCall, altitudeCall, h]

/-- C9 witness: the all-zero coefficient set zeroes the temperature
divisor, so the pipeline errors and the error escapes through the
pressure accessor; the worked-example coefficients have both divisors
nonzero and the pipeline is total there. -/
theorem C9_witness :
    compensateE zeroC 27898 23843 0 = Except.error DriverError.zeroDivision
    ∧ compensateE dsC 27898 23843 0
        = Except.ok (temperatureValue dsC 27898, pressureValue dsC 27898 23843 0)
    ∧ updateSensorData (byteBus 0) zeroState = (zeroState, some DriverError.zeroDivision)
    ∧ pressureCall (byteBus 0) zeroState
        = (zeroState, Except.error DriverError.zeroDivision) := by
  have hupd : updateSensorData (byteBus 0) zeroState
      = (zeroState, some DriverError.zeroDivision) := by decide
  refine ⟨?_, ?_, hupd, ?_⟩
  · exact (C9_division_by_zero.1 zeroC 27898 23843 0).mpr (Or.inl (by decide))
  · exact C9_division_by_zero.2.1 dsC 27898 23843 0 (by decide) (by decide)
  · exact (C9_division_by_zero.2.2 (byteBus 0) zeroState zeroState hupd).2.1

/-- C10: two reading cycles whose bus responses differ only in the third
byte of the 3-byte pressure data block produce identical results — the
same stored calibrated temperature and pressure and the same error
behaviour; the third data byte never influences any output. -/
theorem C10_third_byte_never_used :
    ∀ (bus1 bus2 : Bus) (st : DriverState) (v0 v1 a b : ℕ),
      bus1.writeOk = bus2.writeOk →
      (∀ reg len, ¬(reg = REG_DATA ∧ len = 3) →
        bus1.readBlock reg len = bus2.readBlock reg len) →
      bus1.readBlock REG_DATA 3 = Except.ok [v0, v1, a] →
      bus2.readBlock REG_DATA 3 = Except.ok [v0, v1, b] →
      updateSensorData bus1 st = updateSensorData bus2 st := by
  intro bus1 bus2 st v0 v1 a b hw hagree h1 h2
  have h2ne : ¬(REG_DATA = REG_DATA ∧ 2 = 3) := by decide
  unfold updateSensorData
  rw [hw, hagree REG_DATA 2 h2ne, h1, h2]
  rfl

/-- C10 witness: concretely, pressure blocks [0x5D, 0x23, 0x00] and
[0x5D, 0x23, 0xFF] produce identical updates. -/
theorem C10_witness :
    updateSensorData (byteBus 0) dsState0 = updateSensorData (byteBus 255) dsState0 :=
  C10_third_byte_never_used (byteBus 0) (byteBus 255) dsState0 0x5D 0x23 0 255 rfl
    (fun reg len h => by
      simp only [byteBus]
      rw [if_neg h, if_neg h])
    (by rfl) (by rfl)
